import Mathlib

/-!
Shallow embedding of the renaming scripts of this repository
(procesa_critica_cineclub.py and renombrar_videos_criticas_cineclub.py),
together with theorems settling the frozen claims about them.

The filesystem is modelled as a list of existing file paths (`List Ruta`)
plus a list of existing directories.  A path mirrors a pathlib.Path as the
triple (parent directory, stem, suffix).  Remote calls (Gemini, Whisper,
moviepy) are external collaborators: each embedded function takes their
outcome as an explicit parameter.  Python's unbounded `while True` loop in
obtener_ruta_unica is embedded with explicit fuel; the development proves
that fuel `fs.length + 1` always suffices, which is exactly the source's
termination argument (finitely many files exist, candidate names are
pairwise distinct).
-/

set_option maxHeartbeats 1000000

/-- A filesystem path, mirroring pathlib.Path split into parent directory
(list of components), stem (filename without extension) and suffix
(extension, dot included). -/
structure Ruta where
  dir : List String
  stem : String
  suffix : String
deriving DecidableEq

/-- pathlib.Path.with_stem: replace the stem, keep parent and suffix. -/
def Ruta.with_stem (r : Ruta) (s : String) : Ruta := { r with stem := s }

/-- Decimal digit list of a natural number (most significant first), with
explicit fuel so that it is structurally recursive; any fuel above the
number suffices.  This models the decimal rendering of the counter inside
the Python f-strings such as f-string stem(contador). -/
def toDecimalAux : Nat → Nat → List Char
  | 0, _ => []
  | fuel + 1, n =>
    if n < 10 then [Nat.digitChar n]
    else toDecimalAux fuel (n / 10) ++ [Nat.digitChar (n % 10)]

/-- Decimal rendering of a natural number, as Python str(int) produces. -/
def natToString (n : Nat) : String := String.mk (toDecimalAux (n + 1) n)

/-- Numeric value of a list of decimal digit characters. -/
def valorDigitos (l : List Char) : Nat :=
  l.foldl (fun a c => 10 * a + (c.toNat - 48)) 0

theorem digitChar_toNat (d : Nat) (h : d < 10) : (Nat.digitChar d).toNat = 48 + d := by
  interval_cases d <;> rfl

theorem valorDigitos_append (l : List Char) (c : Char) :
    valorDigitos (l ++ [c]) = 10 * valorDigitos l + (c.toNat - 48) := by
  simp [valorDigitos, List.foldl_append]

theorem valorDigitos_toDecimalAux :
    ∀ (fuel n : Nat), n < fuel → valorDigitos (toDecimalAux fuel n) = n := by
  intro fuel
  induction fuel with
  | zero => intro n h; omega
  | succ fuel ih =>
    intro n h
    rw [toDecimalAux]
    by_cases h10 : n < 10
    · rw [if_pos h10]
      have hd := digitChar_toNat n h10
      simp [valorDigitos]
      omega
    · rw [if_neg h10]
      have hlt : n / 10 < n := Nat.div_lt_self (by omega) (by omega)
      rw [valorDigitos_append, ih (n / 10) (by omega)]
      have hd := digitChar_toNat (n % 10) (Nat.mod_lt n (by omega))
      omega

theorem string_data_inj {s t : String} (h : s.data = t.data) : s = t := by
  cases s
  cases t
  exact congrArg String.mk h

theorem natToString_inj : Function.Injective natToString := by
  intro a b h
  have h2 : toDecimalAux (a + 1) a = toDecimalAux (b + 1) b := congrArg String.data h
  have ha := valorDigitos_toDecimalAux (a + 1) a (by omega)
  have hb := valorDigitos_toDecimalAux (b + 1) b (by omega)
  rw [← ha, ← hb, h2]

/-- Candidate path built by obtener_ruta_unica of procesa_critica_cineclub.py
(line 40): the stem gets the counter appended between parentheses. -/
def candidato (r : Ruta) (c : Nat) : Ruta :=
  r.with_stem (r.stem ++ "(" ++ natToString c ++ ")")

/-- Candidate path built by obtener_ruta_unica of
renombrar_videos_criticas_cineclub.py (line 39): the stem gets an
underscore and the counter appended. -/
def candidato_r (r : Ruta) (c : Nat) : Ruta :=
  r.with_stem (r.stem ++ "_" ++ natToString c)

theorem candidato_inj (r : Ruta) : Function.Injective (candidato r) := by
  intro a b h
  have hstem : r.stem ++ "(" ++ natToString a ++ ")" = r.stem ++ "(" ++ natToString b ++ ")" :=
    congrArg Ruta.stem h
  have hdata := congrArg String.data hstem
  simp only [String.data_append, List.append_assoc] at hdata
  have h1 := List.append_cancel_left hdata
  have h2 := List.append_cancel_left h1
  have h3 := List.append_cancel_right h2
  exact natToString_inj (string_data_inj h3)

theorem candidato_r_inj (r : Ruta) : Function.Injective (candidato_r r) := by
  intro a b h
  have hstem : r.stem ++ "_" ++ natToString a = r.stem ++ "_" ++ natToString b :=
    congrArg Ruta.stem h
  have hdata := congrArg String.data hstem
  simp only [String.data_append, List.append_assoc] at hdata
  have h1 := List.append_cancel_left hdata
  have h2 := List.append_cancel_left h1
  exact natToString_inj (string_data_inj h2)

theorem candidato_dir (r : Ruta) (c : Nat) : (candidato r c).dir = r.dir := rfl

theorem candidato_suffix (r : Ruta) (c : Nat) : (candidato r c).suffix = r.suffix := rfl

/-- The `while True` probe loop of obtener_ruta_unica, instrumented with the
number of existence probes performed so far (`sondeos` starts at 1, counting
the initial probe of the proposed path itself) and bounded by fuel.  Each
iteration probes one candidate and either returns it (when it does not
exist) or increments the counter by one. -/
def buscarConSondeos (cand : Nat → Ruta) (fs : List Ruta) :
    Nat → Nat → Nat → Option (Nat × Nat)
  | 0, _, _ => none
  | fuel + 1, contador, sondeos =>
    if cand contador ∈ fs then buscarConSondeos cand fs fuel (contador + 1) (sondeos + 1)
    else some (contador, sondeos + 1)

/-- obtener_ruta_unica of procesa_critica_cineclub.py (lines 30-43),
instrumented with the total number of existence probes.  The fuel
`fs.length + 1` is proven sufficient below, so the `none` fallback is
unreachable. -/
def obtener_ruta_unica_sondeos (fs : List Ruta) (ruta_propuesta : Ruta) : Ruta × Nat :=
  if ruta_propuesta ∈ fs then
    match buscarConSondeos (candidato ruta_propuesta) fs (fs.length + 1) 2 1 with
    | some (contador, sondeos) => (candidato ruta_propuesta contador, sondeos)
    | none => (ruta_propuesta, fs.length + 2)
  else (ruta_propuesta, 1)

/-- obtener_ruta_unica of procesa_critica_cineclub.py: the returned path. -/
def obtener_ruta_unica (fs : List Ruta) (ruta_propuesta : Ruta) : Ruta :=
  (obtener_ruta_unica_sondeos fs ruta_propuesta).1

/-- obtener_ruta_unica of renombrar_videos_criticas_cineclub.py
(lines 28-42), instrumented; identical except for the candidate format. -/
def obtener_ruta_unica_r_sondeos (fs : List Ruta) (ruta_propuesta : Ruta) : Ruta × Nat :=
  if ruta_propuesta ∈ fs then
    match buscarConSondeos (candidato_r ruta_propuesta) fs (fs.length + 1) 2 1 with
    | some (contador, sondeos) => (candidato_r ruta_propuesta contador, sondeos)
    | none => (ruta_propuesta, fs.length + 2)
  else (ruta_propuesta, 1)

/-- obtener_ruta_unica of renombrar_videos_criticas_cineclub.py: the path. -/
def obtener_ruta_unica_r (fs : List Ruta) (ruta_propuesta : Ruta) : Ruta :=
  (obtener_ruta_unica_r_sondeos fs ruta_propuesta).1

theorem buscarConSondeos_encuentra (cand : Nat → Ruta) (fs : List Ruta) :
    ∀ (fuel c p N : Nat), c ≤ N → (∀ i, c ≤ i → i < N → cand i ∈ fs) → cand N ∉ fs →
      N - c < fuel → buscarConSondeos cand fs fuel c p = some (N, p + (N - c) + 1) := by
  intro fuel
  induction fuel with
  | zero => intro c p N _ _ _ h; omega
  | succ fuel ih =>
    intro c p N hcN hmem hfree hlt
    rw [buscarConSondeos]
    by_cases hc : cand c ∈ fs
    · have hne : c ≠ N := fun h => hfree (h ▸ hc)
      rw [if_pos hc]
      rw [ih (c + 1) (p + 1) N (by omega) (fun i h1 h2 => hmem i (by omega) h2) hfree (by omega)]
      have : p + 1 + (N - (c + 1)) + 1 = p + (N - c) + 1 := by omega
      rw [this]
    · rw [if_neg hc]
      have hcN2 : c = N := by
        rcases Nat.lt_or_ge c N with h | h
        · exact absurd (hmem c le_rfl h) hc
        · omega
      subst hcN2
      have : p + (c - c) + 1 = p + 1 := by omega
      rw [this]

theorem buscarConSondeos_none_mem (cand : Nat → Ruta) (fs : List Ruta) :
    ∀ (fuel c p : Nat), buscarConSondeos cand fs fuel c p = none →
      ∀ i, c ≤ i → i < c + fuel → cand i ∈ fs := by
  intro fuel
  induction fuel with
  | zero => intro c p _ i h1 h2; omega
  | succ fuel ih =>
    intro c p hnone i h1 h2
    rw [buscarConSondeos] at hnone
    by_cases hc : cand c ∈ fs
    · rw [if_pos hc] at hnone
      rcases Nat.eq_or_lt_of_le h1 with rfl | h
      · exact hc
      · exact ih (c + 1) (p + 1) hnone i h (by omega)
    · rw [if_neg hc] at hnone
      exact absurd hnone (by simp)

theorem buscarConSondeos_some_libre (cand : Nat → Ruta) (fs : List Ruta) :
    ∀ (fuel c p c2 p2 : Nat), buscarConSondeos cand fs fuel c p = some (c2, p2) →
      cand c2 ∉ fs := by
  intro fuel
  induction fuel with
  | zero => intro c p c2 p2 h; exact absurd h (by simp [buscarConSondeos])
  | succ fuel ih =>
    intro c p c2 p2 h
    rw [buscarConSondeos] at h
    by_cases hc : cand c ∈ fs
    · rw [if_pos hc] at h
      exact ih (c + 1) (p + 1) c2 p2 h
    · rw [if_neg hc] at h
      have h2 : c = c2 := by
        have := Option.some.inj h
        exact congrArg Prod.fst this
      exact h2 ▸ hc

theorem existe_candidato_libre (cand : Nat → Ruta) (hinj : Function.Injective cand)
    (fs : List Ruta) (c : Nat) : ∃ i, c ≤ i ∧ i < c + (fs.length + 1) ∧ cand i ∉ fs := by
  by_contra hcon
  push_neg at hcon
  have hsub : (Finset.range (fs.length + 1)).image (fun j => cand (c + j)) ⊆ fs.toFinset := by
    intro x hx
    simp only [Finset.mem_image, Finset.mem_range] at hx
    obtain ⟨j, hj, rfl⟩ := hx
    rw [List.mem_toFinset]
    exact hcon (c + j) (by omega) (by omega)
  have hinj2 : Function.Injective (fun j : Nat => cand (c + j)) := by
    intro a b h
    have := hinj h
    omega
  have h1 : ((Finset.range (fs.length + 1)).image (fun j => cand (c + j))).card
      = fs.length + 1 := by
    rw [Finset.card_image_of_injective _ hinj2, Finset.card_range]
  have h2 := Finset.card_le_card hsub
  have h3 := List.toFinset_card_le fs
  omega

theorem buscarConSondeos_total (cand : Nat → Ruta) (hinj : Function.Injective cand)
    (fs : List Ruta) (c p : Nat) :
    buscarConSondeos cand fs (fs.length + 1) c p ≠ none := by
  intro hnone
  obtain ⟨i, h1, h2, h3⟩ := existe_candidato_libre cand hinj fs c
  exact h3 (buscarConSondeos_none_mem cand fs (fs.length + 1) c p hnone i h1 h2)

/-- The resolver never returns a path that already exists. -/
theorem obtener_ruta_unica_libre (fs : List Ruta) (r : Ruta) :
    obtener_ruta_unica fs r ∉ fs := by
  unfold obtener_ruta_unica obtener_ruta_unica_sondeos
  by_cases h : r ∈ fs
  · rw [if_pos h]
    cases heq : buscarConSondeos (candidato r) fs (fs.length + 1) 2 1 with
    | none => exact absurd heq (buscarConSondeos_total _ (candidato_inj r) fs 2 1)
    | some pr =>
      obtain ⟨c2, p2⟩ := pr
      exact buscarConSondeos_some_libre (candidato r) fs (fs.length + 1) 2 1 c2 p2 heq
  · rw [if_neg h]
    exact h

/-- The resolver only ever changes the stem: parent and suffix survive. -/
theorem obtener_ruta_unica_dir_suffix (fs : List Ruta) (r : Ruta) :
    (obtener_ruta_unica fs r).dir = r.dir ∧ (obtener_ruta_unica fs r).suffix = r.suffix := by
  unfold obtener_ruta_unica obtener_ruta_unica_sondeos
  by_cases h : r ∈ fs
  · rw [if_pos h]
    cases heq : buscarConSondeos (candidato r) fs (fs.length + 1) 2 1 with
    | none => exact ⟨rfl, rfl⟩
    | some pr =>
      obtain ⟨c2, p2⟩ := pr
      exact ⟨rfl, rfl⟩
  · rw [if_neg h]
    exact ⟨rfl, rfl⟩

theorem cota_candidatos (cand : Nat → Ruta) (hinj : Function.Injective cand) (fs : List Ruta)
    (N : Nat) (hmem : ∀ i, 2 ≤ i → i ≤ N → cand i ∈ fs) : N - 1 ≤ fs.length := by
  rcases le_or_lt N 1 with h | h
  · omega
  · have hsub : (Finset.Icc 2 N).image cand ⊆ fs.toFinset := by
      intro x hx
      simp only [Finset.mem_image, Finset.mem_Icc] at hx
      obtain ⟨i, ⟨h2, hN⟩, rfl⟩ := hx
      rw [List.mem_toFinset]
      exact hmem i h2 hN
    have h1 : ((Finset.Icc 2 N).image cand).card = N - 1 := by
      rw [Finset.card_image_of_injective _ hinj, Nat.card_Icc]
      omega
    have h2 := Finset.card_le_card hsub
    have h3 := List.toFinset_card_le fs
    omega

theorem resolver_spec_generico (cand : Nat → Ruta) (hinj : Function.Injective cand)
    (fs : List Ruta) (N : Nat) (hN : 1 ≤ N)
    (hmem : ∀ i, 2 ≤ i → i ≤ N → cand i ∈ fs) (hfree : cand (N + 1) ∉ fs) :
    buscarConSondeos cand fs (fs.length + 1) 2 1 = some (N + 1, N + 1) := by
  have hcota := cota_candidatos cand hinj fs N hmem
  have := buscarConSondeos_encuentra cand fs (fs.length + 1) 2 1 (N + 1) (by omega)
    (fun i h1 h2 => hmem i h1 (by omega)) hfree (by omega)
  rw [this]
  have h2 : 1 + (N + 1 - 2) + 1 = N + 1 := by omega
  rw [h2]

/-- C1: for a proposed path that does not exist, obtener_ruta_unica (in both
script variants) returns it unchanged after a single existence probe; for a
proposed path that does exist, with candidates counter 2..N also existing
(N existing paths counting the proposal itself) and candidate N+1 free, it
returns candidate N+1 — the counter starts at 2 and increases by exactly 1,
no gap is skipped — and performs exactly N+1 existence probes, stopping at
the first candidate reported absent.  The embedding is a pure function of
the filesystem list, which is returned unchanged by construction: the
resolver performs no filesystem writes. -/
theorem C1_resolver_ruta_unica :
    ∀ (fs : List Ruta) (r : Ruta),
      (r ∉ fs → obtener_ruta_unica_sondeos fs r = (r, 1)) ∧
      (∀ N, 1 ≤ N → r ∈ fs → (∀ i, 2 ≤ i → i ≤ N → candidato r i ∈ fs) →
        candidato r (N + 1) ∉ fs →
        obtener_ruta_unica_sondeos fs r = (candidato r (N + 1), N + 1)) ∧
      (r ∉ fs → obtener_ruta_unica_r_sondeos fs r = (r, 1)) ∧
      (∀ N, 1 ≤ N → r ∈ fs → (∀ i, 2 ≤ i → i ≤ N → candidato_r r i ∈ fs) →
        candidato_r r (N + 1) ∉ fs →
        obtener_ruta_unica_r_sondeos fs r = (candidato_r r (N + 1), N + 1)) := by
  intro fs r
  refine ⟨?_, ?_, ?_, ?_⟩
  · intro h
    unfold obtener_ruta_unica_sondeos
    rw [if_neg h]
  · intro N hN hr hmem hfree
    unfold obtener_ruta_unica_sondeos
    rw [if_pos hr, resolver_spec_generico (candidato r) (candidato_inj r) fs N hN hmem hfree]
  · intro h
    unfold obtener_ruta_unica_r_sondeos
    rw [if_neg h]
  · intro N hN hr hmem hfree
    unfold obtener_ruta_unica_r_sondeos
    rw [if_pos hr, resolver_spec_generico (candidato_r r) (candidato_r_inj r) fs N hN hmem hfree]

/-- Witness for C1 at a concrete filesystem: proposal a.mp4 and its
candidate a(2).mp4 both exist (N = 2), so the resolver answers a(3).mp4
with exactly 3 probes; and on an empty filesystem the proposal comes back
unchanged with 1 probe. -/
theorem C1_resolver_ruta_unica_witness :
    candidato ⟨[], "a", ".mp4"⟩ 2 = ⟨[], "a(2)", ".mp4"⟩ ∧
    obtener_ruta_unica_sondeos [⟨[], "a", ".mp4"⟩, candidato ⟨[], "a", ".mp4"⟩ 2]
      ⟨[], "a", ".mp4"⟩ = (candidato ⟨[], "a", ".mp4"⟩ 3, 3) ∧
    obtener_ruta_unica_sondeos [] ⟨[], "a", ".mp4"⟩ = (⟨[], "a", ".mp4"⟩, 1) := by
  refine ⟨by decide, ?_, ?_⟩
  · exact (C1_resolver_ruta_unica [⟨[], "a", ".mp4"⟩, candidato ⟨[], "a", ".mp4"⟩ 2]
      ⟨[], "a", ".mp4"⟩).2.1 2 (by decide) (by decide)
      (fun i h1 h2 => by
        have hi : i = 2 := by omega
        subst hi
        decide)
      (by decide)
  · exact (C1_resolver_ruta_unica [] ⟨[], "a", ".mp4"⟩).1 (by decide)

/-- Outcome of one underlying call to gemini_model.generate_content: a
response text, the ResourceExhausted quota signal, or any other exception. -/
inductive Salida where
  | ok (texto : String)
  | cuota
  | fallo (msg : String)
deriving DecidableEq

/-- Result of gemini_request_with_retry: the returned response, a re-raised
non-quota exception, or the final raise after all retries are exhausted
(the message at line 60). -/
inductive ResultadoRetry where
  | respuesta (texto : String)
  | excepcion (msg : String)
  | agotado
deriving DecidableEq

/-- Observable trace of one run of the wrapper: its result, the number of
generate_content attempts made, the number of time.sleep(delay) calls, and
the total seconds spent sleeping. -/
structure Traza where
  resultado : ResultadoRetry
  intentos : Nat
  dormidas : Nat
  segundos : Nat
deriving DecidableEq

/-- The `for attempt in range(max_retries)` loop of gemini_request_with_retry
(lines 49-58): `llamada` gives the outcome of the attempt with the given
0-based index; a quota failure sleeps delay seconds and continues, a success
or any other exception leaves the loop at once. -/
def gemini_aux (llamada : Nat → Salida) (delay : Nat) : Nat → Nat → Nat → Traza
  | 0, intento, dormidas => ⟨.agotado, intento, dormidas, dormidas * delay⟩
  | restante + 1, intento, dormidas =>
    match llamada intento with
    | .ok t => ⟨.respuesta t, intento + 1, dormidas, dormidas * delay⟩
    | .cuota => gemini_aux llamada delay restante (intento + 1) (dormidas + 1)
    | .fallo m => ⟨.excepcion m, intento + 1, dormidas, dormidas * delay⟩

/-- gemini_request_with_retry (lines 45-60); in the source max_retries
defaults to 3 and delay to 5 seconds. -/
def gemini_request_with_retry (llamada : Nat → Salida) (max_retries delay : Nat) : Traza :=
  gemini_aux llamada delay max_retries 0 0

theorem gemini_aux_cuota (llamada : Nat → Salida) (delay : Nat) :
    ∀ (n restante intento dormidas : Nat), n ≤ restante →
      (∀ i, i < n → llamada (intento + i) = .cuota) →
      gemini_aux llamada delay restante intento dormidas
        = gemini_aux llamada delay (restante - n) (intento + n) (dormidas + n) := by
  intro n
  induction n with
  | zero => intro restante intento dormidas _ _; simp
  | succ n ih =>
    intro restante intento dormidas hle hc
    match restante, hle with
    | restante + 1, _ =>
      rw [gemini_aux]
      have h0 : llamada intento = .cuota := by
        have := hc 0 (by omega)
        simpa using this
      rw [h0]
      have hrec := ih restante (intento + 1) (dormidas + 1) (by omega)
        (fun i hi => by
          have := hc (i + 1) (by omega)
          have he : intento + (i + 1) = intento + 1 + i := by omega
          rw [he] at this
          exact this)
      rw [hrec]
      have e1 : restante - n = restante + 1 - (n + 1) := by omega
      have e2 : intento + 1 + n = intento + (n + 1) := by omega
      have e3 : dormidas + 1 + n = dormidas + (n + 1) := by omega
      rw [e1, e2, e3]

/-- C2: the retry wrapper returns the success response after exactly k quota
failures and k sleeps when attempt k succeeds (k < max_retries); it
propagates a non-quota exception at once, with no further attempts and no
sleep following the failing attempt; and when every attempt hits the quota
condition it performs exactly max_retries attempts and ends in the
retries-exhausted error. -/
theorem C2_reintentos_gemini (llamada : Nat → Salida) (max_retries delay : Nat) :
    (∀ k t, k < max_retries → (∀ i, i < k → llamada i = .cuota) → llamada k = .ok t →
      gemini_request_with_retry llamada max_retries delay
        = ⟨.respuesta t, k + 1, k, k * delay⟩) ∧
    (∀ j m, j < max_retries → (∀ i, i < j → llamada i = .cuota) → llamada j = .fallo m →
      gemini_request_with_retry llamada max_retries delay
        = ⟨.excepcion m, j + 1, j, j * delay⟩) ∧
    ((∀ i, i < max_retries → llamada i = .cuota) →
      (gemini_request_with_retry llamada max_retries delay).resultado = .agotado ∧
      (gemini_request_with_retry llamada max_retries delay).intentos = max_retries) := by
  refine ⟨?_, ?_, ?_⟩
  · intro k t hk hq hok
    unfold gemini_request_with_retry
    rw [gemini_aux_cuota llamada delay k max_retries 0 0 (by omega)
      (fun i hi => by simpa using hq i hi)]
    match hm : max_retries - k, Nat.sub_pos_of_lt hk with
    | m + 1, _ =>
      rw [gemini_aux]
      simp only [Nat.zero_add]
      rw [hok]
  · intro j m hj hq hfallo
    unfold gemini_request_with_retry
    rw [gemini_aux_cuota llamada delay j max_retries 0 0 (by omega)
      (fun i hi => by simpa using hq i hi)]
    match hm : max_retries - j, Nat.sub_pos_of_lt hj with
    | r + 1, _ =>
      rw [gemini_aux]
      simp only [Nat.zero_add]
      rw [hfallo]
  · intro hq
    unfold gemini_request_with_retry
    rw [gemini_aux_cuota llamada delay max_retries max_retries 0 0 le_rfl
      (fun i hi => by simpa using hq i hi)]
    rw [Nat.sub_self]
    rw [gemini_aux]
    exact ⟨rfl, by simp⟩

/-- Witness for C2: with quota on attempt 0 and success on attempt 1 the
wrapper returns the response after 2 attempts and 1 sleep of 5 seconds;
with a non-quota failure on attempt 0 it fails at once with no sleep. -/
theorem C2_reintentos_gemini_witness :
    gemini_request_with_retry (fun i => if i = 0 then .cuota else .ok ("hola")) 3 5
      = ⟨.respuesta ("hola"), 2, 1, 5⟩ ∧
    gemini_request_with_retry (fun i => if i = 0 then .fallo ("auth") else .ok ("hola")) 3 5
      = ⟨.excepcion ("auth"), 1, 0, 0⟩ := by
  constructor
  · exact (C2_reintentos_gemini (fun i => if i = 0 then .cuota else .ok ("hola")) 3 5).1
      1 ("hola") (by omega) (by decide) (by decide)
  · exact (C2_reintentos_gemini (fun i => if i = 0 then .fallo ("auth") else .ok ("hola")) 3 5).2.1
      0 ("auth") (by omega) (by decide) (by decide)

/-- C10: when every attempt fails with the quota condition, the loop body
sleeps after each failed attempt including the last one, so on exhaustion
the wrapper has slept exactly max_retries times (max_retries * delay
seconds in total), not max_retries - 1, before raising the
retries-exhausted error. -/
theorem C10_duerme_tras_el_ultimo_intento (llamada : Nat → Salida) (max_retries delay : Nat) :
    (∀ i, i < max_retries → llamada i = .cuota) →
      gemini_request_with_retry llamada max_retries delay
        = ⟨.agotado, max_retries, max_retries, max_retries * delay⟩ := by
  intro hq
  unfold gemini_request_with_retry
  rw [gemini_aux_cuota llamada delay max_retries max_retries 0 0 le_rfl
    (fun i hi => by simpa using hq i hi)]
  rw [Nat.sub_self]
  rw [gemini_aux]
  simp

/-- Witness for C10: three quota failures with max_retries = 3 and
delay = 5 give exactly 3 sleeps, 15 seconds in total. -/
theorem C10_duerme_tras_el_ultimo_intento_witness :
    gemini_request_with_retry (fun _ => .cuota) 3 5 = ⟨.agotado, 3, 3, 15⟩ :=
  C10_duerme_tras_el_ultimo_intento (fun _ => .cuota) 3 5 (by decide)

/-- The characters Python's str.strip() removes: exactly those with
str.isspace() true, i.e. CPython's Py_UNICODE_ISSPACE table — tab through
carriage return (9-13), the file/group/record/unit separators (28-31),
space, next line (133), no-break space (160), ogham space mark (5760), the
en-quad through hair-space range (8192-8202), line and paragraph
separators (8232, 8233), narrow no-break space (8239), medium mathematical
space (8287) and ideographic space (12288). -/
def esEspacioPython (c : Char) : Bool :=
  let n := c.toNat
  (9 ≤ n && n ≤ 13) || (28 ≤ n && n ≤ 31) || n = 32 || n = 133 || n = 160 ||
  n = 5760 || (8192 ≤ n && n ≤ 8202) || n = 8232 || n = 8233 || n = 8239 ||
  n = 8287 || n = 12288

/-- Python str.strip(): remove leading and trailing whitespace.  Implemented
structurally so that concrete instances evaluate in the kernel. -/
def recortar (s : String) : String :=
  String.mk (((s.data.dropWhile esEspacioPython).reverse.dropWhile esEspacioPython).reverse)

/-- Python str.replace for a single-character pattern and replacement, the
only form the scripts use. -/
def reemplazar (s : String) (a b : Char) : String :=
  String.mk (s.data.map (fun c => if c = a then b else c))

/-- The characters removed by the regex of lines 119 and 87: backslash,
slash, asterisk, question mark, colon, double quote, angle brackets, bar. -/
def caracterIlegal (c : Char) : Bool :=
  c = '\\' || c = '/' || c = '*' || c = '?' || c = ':' || c = '"' || c = '<' || c = '>' || c = '|'

/-- re.sub of the illegal-character class with the empty string: keep only
the legal characters. -/
def limpiar (s : String) : String :=
  String.mk (s.data.filter (fun c => !caracterIlegal c))

/-- obtener_nombre_pelicula (procesa_critica_cineclub.py lines 105-123; the
same strip-clean-fallback logic appears at lines 68-91 of
renombrar_videos_criticas_cineclub.py).  The outcome of the retry-wrapped
remote call is the parameter `respuesta`: `.ok` carries response.text and
`.error` models the exception path of line 121, which also yields the
unknown-name sentinel.  An empty transcription short-circuits to None. -/
def obtener_nombre_pelicula (transcripcion : String) (respuesta : Except String String) :
    Option String :=
  if transcripcion = "" then none
  else
    match respuesta with
    | .error _ => some ("nombre_desconocido")
    | .ok texto =>
      let nombre_limpio := limpiar (recortar texto)
      some (if nombre_limpio = "" then "nombre_desconocido" else nombre_limpio)

/-- C5: for every remote response, title inference strips the
filesystem-illegal characters from the stripped response text, returns the
unknown-name sentinel whenever the sanitised result is empty, and never
returns an empty filename; every character of the returned name is legal. -/
theorem C5_nombre_nunca_vacio (t r : String) (ht : t ≠ "") :
    ∃ n, obtener_nombre_pelicula t (.ok r) = some n ∧ n ≠ "" ∧
      (limpiar (recortar r) = "" → n = "nombre_desconocido") ∧
      (limpiar (recortar r) ≠ "" → n = limpiar (recortar r)) ∧
      (∀ c, c ∈ n.data → caracterIlegal c = false) := by
  unfold obtener_nombre_pelicula
  rw [if_neg ht]
  by_cases h : limpiar (recortar r) = ""
  · refine ⟨"nombre_desconocido", ?_, by decide, fun _ => rfl, fun hne => absurd h hne, ?_⟩
    · simp only [h, if_pos]
    · decide
  · refine ⟨limpiar (recortar r), ?_, h, fun he => absurd he h, fun _ => rfl, ?_⟩
    · simp only [if_neg h]
    · intro c hc
      have hc2 : c ∈ (recortar r).data.filter (fun c => !caracterIlegal c) := hc
      have := (List.mem_filter.mp hc2).2
      simpa using this

/-- Witness for C5: a response that strips and sanitises to a nonempty
name comes back sanitised; the question mark is removed. -/
theorem C5_nombre_nunca_vacio_witness :
    obtener_nombre_pelicula ("x") (.ok ("  Dune?  ")) = some ("Dune") := by
  obtain ⟨n, h1, h2, h3, h4, h5⟩ := C5_nombre_nunca_vacio ("x") ("  Dune?  ") (by decide)
  have hl : limpiar (recortar ("  Dune?  ")) = "Dune" := by decide
  rw [h1, h4 (by rw [hl]; decide), hl]

/-- One run of ASCII digits that may contain single underscores between
digits (PEP 515); yields the digits with the underscores removed, or none
when the run is empty or an underscore is not between two digits. -/
def segmentoDigitos : List Char → Option (List Char)
  | [] => none
  | [c] => if c.isDigit then some [c] else none
  | c :: '_' :: resto2 =>
    if c.isDigit then
      match segmentoDigitos resto2 with
      | some ds => some (c :: ds)
      | none => none
    else none
  | c :: resto =>
    if c.isDigit then
      match segmentoDigitos resto with
      | some ds => some (c :: ds)
      | none => none
    else none

/-- Split a character list at the first occurrence of one of the marks:
the part before it and, when a mark was found, the part after it. -/
def partirEn (marcas : List Char) : List Char → List Char × Option (List Char)
  | [] => ([], none)
  | c :: resto =>
    if c ∈ marcas then ([], some resto)
    else
      let p := partirEn marcas resto
      (c :: p.1, p.2)

/-- Strip one optional leading sign; true means a minus was present. -/
def quitarSigno : List Char → Bool × List Char
  | '-' :: resto => (true, resto)
  | '+' :: resto => (false, resto)
  | l => (false, l)

/-- ASCII lowercasing, as CPython matches inf, infinity and nan
case-insensitively. -/
def minusculas (l : List Char) : List Char :=
  l.map (fun c => if 'A' ≤ c && c ≤ 'Z' then Char.ofNat (c.toNat + 32) else c)

/-- Result of the Python float() built-in: a finite value given exactly as
mantisa * 10 ^ exp10, an infinity, or nan. -/
inductive ValorFloat where
  | finito (mantisa : Int) (exp10 : Int)
  | infinito (negativo : Bool)
  | indeterminado
deriving DecidableEq

/-- Python float() on an already-stripped string (the script calls it on
response.text.strip() with commas replaced): an optional sign followed
either by inf, infinity or nan (ASCII case-insensitive), or by a decimal
literal — digit runs that may contain single underscores between digits,
at most one point, at least one mantissa digit, and an optional signed
exponent.  This is CPython's grammar for building a float from a string;
a finite literal is recorded exactly as mantissa and power of ten.
CPython additionally maps non-ASCII Unicode decimal digits to ASCII before
parsing; such characters are outside the model, which accepts ASCII digits
only. -/
def pyFloat? (s : String) : Option ValorFloat :=
  let signo := quitarSigno s.data
  let bajas := minusculas signo.2
  if bajas = ['i', 'n', 'f'] ∨ bajas = ['i', 'n', 'f', 'i', 'n', 'i', 't', 'y'] then
    some (.infinito signo.1)
  else if bajas = ['n', 'a', 'n'] then
    some .indeterminado
  else
    let mantExp := partirEn ['e', 'E'] signo.2
    let entFrac := partirEn ['.'] mantExp.1
    let entera? : Option (List Char) :=
      if entFrac.1.isEmpty then some [] else segmentoDigitos entFrac.1
    let fraccion? : Option (List Char) :=
      match entFrac.2 with
      | none => some []
      | some f => if f.isEmpty then some [] else segmentoDigitos f
    let exponente? : Option Int :=
      match mantExp.2 with
      | none => some 0
      | some ex =>
        let signoExp := quitarSigno ex
        match segmentoDigitos signoExp.2 with
        | none => none
        | some ds =>
          some (if signoExp.1 then -(valorDigitos ds : Int) else (valorDigitos ds : Int))
    match entera?, fraccion?, exponente? with
    | some ent, some frac, some expv =>
      if ent.isEmpty && frac.isEmpty then none
      else
        let magnitud : Int := (valorDigitos (ent ++ frac) : Int)
        some (.finito (if signo.1 then -magnitud else magnitud) (expv - frac.length))
    | _, _, _ => none

/-- Upper half of the range test of line 139: the parsed double is at most
10.  The double nearest to the literal's exact value is what float()
returns; rounding to nearest is monotone, and the midpoint 10 + 2 ^ -50
between 10 and the next double rounds to 10 because the significand of
10.0 is even (ties to even), so the parsed double is ≤ 10 exactly when the
exact value is ≤ 10 + 2 ^ -50 — values that overflow to +infinity lie
beyond the bound as well.  Stated on integers so that it evaluates in the
kernel. -/
def cotaAlta (m e : Int) : Bool :=
  if 0 ≤ e then decide (m * 10 ^ e.toNat * 2 ^ 50 ≤ 10 * 2 ^ 50 + 1)
  else decide (m * 2 ^ 50 ≤ (10 * 2 ^ 50 + 1) * 10 ^ (-e).toNat)

/-- Lower half of the range test of line 139: the parsed double is at
least 0.  Python's 0 <= -0.0 holds, and the midpoint -(2 ^ -1075) between
0 and the smallest negative subnormal rounds to -0.0 (ties to even), so
the parsed double is ≥ 0 exactly when the exact value is ≥ -(2 ^ -1075). -/
def cotaBaja (m e : Int) : Bool :=
  if 0 ≤ m then true
  else if 0 ≤ e then false
  else decide (-m * 2 ^ 1075 ≤ 10 ^ (-e).toNat)

/-- The comparison `0 <= valor_numerico <= 10` of line 139, performed by
Python on the parsed double: false for nan and the infinities, and for a
finite literal equivalent (enRango_finito_iff) to its exact value lying in
[-(2 ^ -1075), 10 + 2 ^ -50], the set of reals whose nearest double lies
in [0, 10]. -/
def enRango : ValorFloat → Bool
  | .finito m e => cotaBaja m e && cotaAlta m e
  | .infinito _ => false
  | .indeterminado => false

/-- obtener_puntuacion (lines 125-147).  The outcome of the retry-wrapped
remote call is the parameter `respuesta`; `.error` models the exception
path of line 145.  The stripped response has its commas turned into
points, is parsed with float(), and a parse failure, an infinity, nan or
an out-of-range value normalises to the sentinel. -/
def obtener_puntuacion (transcripcion : String) (respuesta : Except String String) : String :=
  if transcripcion = "" then "no"
  else
    match respuesta with
    | .error _ => "no"
    | .ok texto =>
      let puntuacion_str := reemplazar (recortar texto) ',' '.'
      match pyFloat? puntuacion_str with
      | some valor_numerico => if enRango valor_numerico then puntuacion_str else "no"
      | none => "no"

/-- Environment of one transcribir_clip run (lines 65-103): whether the
clip extraction succeeds, the outcome of genai.upload_file (the asset name
when it returns, none when it raises), the outcome of the polling loop (the
terminal state name, or an exception while polling), the outcome of the
retry-wrapped transcription request, and whether the remote deletion in the
finally block succeeds. -/
structure ClipEntorno where
  extraer_ok : Bool
  subida : Option String
  estado_remoto : Except String String
  transcripcion : Except String String
  borrado_ok : Bool

/-- Observable outcome of transcribir_clip: the returned transcription
(None on any failure path), the number of genai.delete_file attempts made
by the finally block, and whether a deletion failure was logged. -/
structure ClipResultado where
  texto : Option String
  borrados : Nat
  fallo_borrado : Bool
deriving DecidableEq

/-- transcribir_clip (lines 65-103).  The try body computes the primary
result; the finally block attempts the remote deletion exactly when
audio_file was assigned, i.e. when the upload returned, and a deletion
failure is only logged, never raised into the primary result. -/
def transcribir_clip (env : ClipEntorno) : ClipResultado :=
  if !env.extraer_ok then ⟨none, 0, false⟩
  else
    match env.subida with
    | none => ⟨none, 0, false⟩
    | some _ =>
      let resultado : Option String :=
        match env.estado_remoto with
        | .error _ => none
        | .ok estado =>
          if estado ≠ "ACTIVE" then none
          else
            match env.transcripcion with
            | .error _ => none
            | .ok texto => some texto
      ⟨resultado, 1, !env.borrado_ok⟩

/-- C8: whenever the extraction succeeds and the upload returns an asset,
the remote deletion is attempted exactly once, on every exit path (success,
transcription failure, polling failure or raised exception); when the
upload never succeeds no deletion is attempted; a deletion failure is
logged and the primary result is unchanged by it. -/
theorem C8_borrado_remoto_una_vez (env : ClipEntorno) (b : Bool) :
    (transcribir_clip env).borrados
        = (if env.extraer_ok && env.subida.isSome then 1 else 0) ∧
    (transcribir_clip env).fallo_borrado
        = (env.extraer_ok && env.subida.isSome && !env.borrado_ok) ∧
    (transcribir_clip { env with borrado_ok := b }).texto = (transcribir_clip env).texto := by
  obtain ⟨eo, su, er, tr, bo⟩ := env
  cases eo <;> cases su <;> simp [transcribir_clip]

/-- Kind of filesystem write the orchestrator performs. -/
inductive TipoEscritura where
  | renombrado
  | reubicacion
  | aError
deriving DecidableEq

/-- One filesystem write: its kind, the target path, and whether the target
was already occupied when the write happened (Path.rename and shutil.move
silently replace an occupied target on POSIX). -/
structure Escritura where
  tipo : TipoEscritura
  destino : Ruta
  ocupado : Bool
deriving DecidableEq

/-- Filesystem state: the existing files and the existing directories. -/
structure Estado where
  files : List Ruta
  dirs : List (List String)
deriving DecidableEq

/-- os.makedirs with exist_ok: create the directory if absent. -/
def crear_dir (e : Estado) (d : List String) : Estado :=
  if d ∈ e.dirs then e else { e with dirs := d :: e.dirs }

/-- Move or rename src to dst: src disappears, dst exists afterwards,
replacing any previous file at dst. -/
def mover_archivo (files : List Ruta) (src dst : Ruta) : List Ruta :=
  dst :: files.erase src

/-- The move-to-error retry loop of lines 174-187: `intento` attempts have
already been made and up to `restante` more are allowed; `mover_ok k` tells
whether the k-th attempt (0-based) succeeds.  Returns the total number of
attempts made and whether one succeeded. -/
def mover_reintentos (mover_ok : Nat → Bool) : Nat → Nat → Nat × Bool
  | 0, intento => (intento, false)
  | restante + 1, intento =>
    if mover_ok intento then (intento + 1, true)
    else mover_reintentos mover_ok restante (intento + 1)

/-- Outcomes of the external collaborators for one video, one field per
call procesar_un_video makes: the duration probe, the two transcriptions
(already run through transcribir_clip, so an Option), the two remote
inference responses, the error-move attempts and the final relocation. -/
structure Entorno where
  duracion_ok : Bool
  texto_inicio : Option String
  nombre_resp : Except String String
  texto_final : Option String
  punt_resp : Except String String
  mover_error_ok : Nat → Bool
  mover_final_ok : Bool

/-- procesar_un_video (lines 151-214) as a filesystem transformer, returning
the new state and the list of writes performed.  A failing duration probe or
an empty or absent transcription leaves with no write (lines 158-163 and
192-193, the raised probe exception being caught at line 213); a sentinel or
empty film name routes the file to the error folder with the retried move of
lines 166-188; otherwise the file is renamed through obtener_ruta_unica
against its own directory (lines 199-203) and then moved into the
destination root, where a failing move only logs (lines 206-211). -/
def procesar_un_video (estado : Estado) (ruta_video : Ruta) (env : Entorno)
    (destination_dir : List String) : Estado × List Escritura :=
  if !env.duracion_ok then (estado, [])
  else
    match env.texto_inicio with
    | none => (estado, [])
    | some texto_inicio =>
      if texto_inicio = "" then (estado, [])
      else
        match obtener_nombre_pelicula texto_inicio env.nombre_resp with
        | none => (estado, [])
        | some nombre_pelicula =>
          if nombre_pelicula = "" ∨ nombre_pelicula = "nombre_desconocido"
              ∨ nombre_pelicula = "pelicula_no_encontrada" then
            let error_dir := destination_dir ++ ["error"]
            let estado1 := crear_dir estado error_dir
            let error_destination : Ruta := ⟨error_dir, ruta_video.stem, ruta_video.suffix⟩
            if (mover_reintentos env.mover_error_ok 3 0).2 then
              ({ estado1 with
                  files := mover_archivo estado1.files ruta_video error_destination },
               [⟨.aError, error_destination,
                 decide (error_destination ∈ estado1.files.erase ruta_video)⟩])
            else (estado1, [])
          else
            match env.texto_final with
            | none => (estado, [])
            | some texto_final =>
              if texto_final = "" then (estado, [])
              else
                let puntuacion := obtener_puntuacion texto_final env.punt_resp
                let nombre_puntuacion_seguro := reemplazar puntuacion '.' '_'
                let nuevo_nombre_base :=
                  nombre_pelicula ++ "_puntos_" ++ nombre_puntuacion_seguro
                let nueva_ruta_video :=
                  obtener_ruta_unica estado.files (ruta_video.with_stem nuevo_nombre_base)
                let escritura1 : Escritura :=
                  ⟨.renombrado, nueva_ruta_video,
                   decide (nueva_ruta_video ∈ estado.files.erase ruta_video)⟩
                let files1 := mover_archivo estado.files ruta_video nueva_ruta_video
                if env.mover_final_ok then
                  let final_destination : Ruta :=
                    ⟨destination_dir, nueva_ruta_video.stem, nueva_ruta_video.suffix⟩
                  let escritura2 : Escritura :=
                    ⟨.reubicacion, final_destination,
                     decide (final_destination ∈ files1.erase nueva_ruta_video)⟩
                  ({ estado with
                      files := mover_archivo files1 nueva_ruta_video final_destination },
                   [escritura1, escritura2])
                else ({ estado with files := files1 }, [escritura1])

/-- The batch loop of lines 263-264: process each video in turn, threading
the filesystem state and collecting the writes in order. -/
def ejecutar_lote (estado : Estado) (tareas : List (Ruta × Entorno))
    (destination_dir : List String) : Estado × List Escritura :=
  match tareas with
  | [] => (estado, [])
  | (ruta, env) :: resto =>
    let paso := procesar_un_video estado ruta env destination_dir
    let siguiente := ejecutar_lote paso.1 resto destination_dir
    (siguiente.1, paso.2 ++ siguiente.2)

/-- C3 counterexample: destination filenames are not collision-free across
one run.  In this batch two videos with the same inferred title and score
are each renamed collision-free inside upload, but both are then relocated
to the same destination path, the second write hitting the occupied path
left by the first; a third video routed to the error folder also hits a
path already occupied there.  The run performs two writes whose target was
occupied, so the claimed invariant is false. -/
theorem C3_colision_en_destino_contraejemplo :
    ((ejecutar_lote
        ⟨[⟨["upload"], "a", ".mp4"⟩, ⟨["upload"], "b", ".mp4"⟩,
          ⟨["error"], "c", ".mp4"⟩, ⟨["upload"], "c", ".mp4"⟩], [["upload"]]⟩
        [(⟨["upload"], "a", ".mp4"⟩,
          ⟨true, some ("t"), .ok ("Dune"), some ("t2"), .ok ("8"), fun _ => true, true⟩),
         (⟨["upload"], "b", ".mp4"⟩,
          ⟨true, some ("t"), .ok ("Dune"), some ("t2"), .ok ("8"), fun _ => true, true⟩),
         (⟨["upload"], "c", ".mp4"⟩,
          ⟨true, some ("t"), .ok ("pelicula_no_encontrada"), some ("t2"), .ok ("8"),
           fun _ => true, true⟩)]
        []).2.filter (fun e => e.ocupado)).map (fun e => (e.tipo, e.destino))
      = [(.reubicacion, ⟨[], "Dune_puntos_8", ".mp4"⟩),
         (.aError, ⟨["error"], "c", ".mp4"⟩)] := by
  decide

theorem procesar_renombrado_libre (estado : Estado) (ruta : Ruta) (env : Entorno)
    (dest : List String) (e : Escritura)
    (he : e ∈ (procesar_un_video estado ruta env dest).2)
    (ht : e.tipo = .renombrado) : e.ocupado = false := by
  unfold procesar_un_video at he
  split at he
  · simp at he
  · split at he
    · simp at he
    · split at he
      · simp at he
      · split at he
        · simp at he
        · split at he
          · split at he
            · simp only [List.mem_singleton] at he
              rw [he] at ht
              simp at ht
            · simp at he
          · split at he
            · simp at he
            · split at he
              · simp at he
              · split at he
                · simp only [List.mem_cons, List.mem_singleton, List.not_mem_nil,
                    or_false] at he
                  rcases he with he | he
                  · rw [he]
                    simp only [decide_eq_false_iff_not]
                    intro hmem
                    exact obtener_ruta_unica_libre estado.files _
                      (List.erase_subset _ _ hmem)
                  · rw [he] at ht
                    simp at ht
                · simp only [List.mem_singleton] at he
                  rw [he]
                  simp only [decide_eq_false_iff_not]
                  intro hmem
                  exact obtener_ruta_unica_libre estado.files _
                    (List.erase_subset _ _ hmem)

/-- C3 amended: collision-freedom holds only for the in-place rename step.
In every run, every renombrado write targets a path that was free at the
moment of the write, because the proposed name goes through
obtener_ruta_unica against the video's own directory; the relocation into
the destination root and the error-folder move reuse the plain filename
without re-resolving, and (as the counterexample shows) may hit an
occupied path and replace the file there. -/
theorem C3_renombrado_nunca_ocupado :
    ∀ (tareas : List (Ruta × Entorno)) (estado : Estado) (dest : List String) (e : Escritura),
      e ∈ (ejecutar_lote estado tareas dest).2 → e.tipo = .renombrado → e.ocupado = false := by
  intro tareas
  induction tareas with
  | nil =>
    intro estado dest e he _
    simp [ejecutar_lote] at he
  | cons tarea resto ih =>
    intro estado dest e he ht
    obtain ⟨ruta, env⟩ := tarea
    rw [ejecutar_lote] at he
    simp only [List.mem_append] at he
    rcases he with h | h
    · exact procesar_renombrado_libre estado ruta env dest e h ht
    · exact ih _ dest e h ht

/-- Witness for C3 amended: in a concrete single-video run the rename write
exists and its target was free. -/
theorem C3_renombrado_nunca_ocupado_witness :
    (⟨.renombrado, ⟨["upload"], "Dune_puntos_8", ".mp4"⟩, false⟩ : Escritura).ocupado = false :=
  C3_renombrado_nunca_ocupado
    [(⟨["upload"], "a", ".mp4"⟩,
      ⟨true, some ("t"), .ok ("Dune"), some ("t2"), .ok ("8"), fun _ => true, true⟩)]
    ⟨[⟨["upload"], "a", ".mp4"⟩], [["upload"]]⟩ []
    ⟨.renombrado, ⟨["upload"], "Dune_puntos_8", ".mp4"⟩, false⟩ (by decide) rfl

/-- C6: the proposed new filename is exactly the sanitised title, the fixed
separator token, and the score with every point replaced by an underscore;
the proposal keeps the video's own directory and its original extension;
resolving it through obtener_ruta_unica preserves both and yields a path
free of collisions; the replaced score contains no point; and on the
success path procesar_un_video renames to exactly this resolved path, so
the rename happens in place in the video's own directory. -/
theorem C6_nombre_compuesto_y_en_sitio :
    ∀ (fs : List Ruta) (ruta : Ruta) (nombre punt : String),
      (ruta.with_stem (nombre ++ "_puntos_" ++ reemplazar punt '.' '_')).stem
          = nombre ++ "_puntos_" ++ reemplazar punt '.' '_' ∧
      (ruta.with_stem (nombre ++ "_puntos_" ++ reemplazar punt '.' '_')).dir = ruta.dir ∧
      (ruta.with_stem (nombre ++ "_puntos_" ++ reemplazar punt '.' '_')).suffix
          = ruta.suffix ∧
      (obtener_ruta_unica fs
          (ruta.with_stem (nombre ++ "_puntos_" ++ reemplazar punt '.' '_'))).dir
          = ruta.dir ∧
      (obtener_ruta_unica fs
          (ruta.with_stem (nombre ++ "_puntos_" ++ reemplazar punt '.' '_'))).suffix
          = ruta.suffix ∧
      obtener_ruta_unica fs
          (ruta.with_stem (nombre ++ "_puntos_" ++ reemplazar punt '.' '_')) ∉ fs ∧
      (∀ c, c ∈ (reemplazar punt '.' '_').data → c ≠ '.') ∧
      (∀ (estado : Estado) (env : Entorno) (dest : List String) (t1 t2 : String),
        env.duracion_ok = true → env.texto_inicio = some t1 → t1 ≠ "" →
        obtener_nombre_pelicula t1 env.nombre_resp = some nombre →
        nombre ≠ "" → nombre ≠ "nombre_desconocido" → nombre ≠ "pelicula_no_encontrada" →
        env.texto_final = some t2 → t2 ≠ "" →
        obtener_puntuacion t2 env.punt_resp = punt →
        ∃ resto, (procesar_un_video estado ruta env dest).2
            = ⟨.renombrado,
               obtener_ruta_unica estado.files
                 (ruta.with_stem (nombre ++ "_puntos_" ++ reemplazar punt '.' '_')),
               decide (obtener_ruta_unica estado.files
                   (ruta.with_stem (nombre ++ "_puntos_" ++ reemplazar punt '.' '_'))
                 ∈ estado.files.erase ruta)⟩ :: resto) := by
  intro fs ruta nombre punt
  refine ⟨rfl, rfl, rfl, (obtener_ruta_unica_dir_suffix fs _).1,
    (obtener_ruta_unica_dir_suffix fs _).2, obtener_ruta_unica_libre fs _, ?_, ?_⟩
  · intro c hc
    obtain ⟨d, _, hd⟩ := List.mem_map.mp hc
    by_cases hp : d = '.'
    · rw [hp] at hd
      simp only [if_pos rfl] at hd
      rw [← hd]
      decide
    · rw [if_neg hp] at hd
      rw [← hd]
      exact hp
  · intro estado env dest t1 t2 hdur hti ht1 hnom hne1 hne2 hne3 htf ht2 hpunt
    have hsent : ¬(nombre = "" ∨ nombre = "nombre_desconocido"
        ∨ nombre = "pelicula_no_encontrada") := by
      push_neg
      exact ⟨hne1, hne2, hne3⟩
    obtain ⟨dur, ti, nr, tf, pr, meo, mfo⟩ := env
    simp only at hdur hti htf hpunt hnom
    subst hdur hti htf
    simp only [procesar_un_video, Bool.not_true, Bool.false_eq_true, if_false,
      if_neg ht1, hnom, if_neg hsent, if_neg ht2, hpunt]
    cases mfo
    · simp only [Bool.false_eq_true, if_false]
      exact ⟨_, rfl⟩
    · simp only [if_true]
      exact ⟨_, rfl⟩

/-- Witness for C6: a concrete video with title Dune and score 8,5 is
renamed to the resolved Dune_puntos_8_5 path in its own directory. -/
theorem C6_nombre_compuesto_y_en_sitio_witness :
    ∃ resto, (procesar_un_video ⟨[⟨["upload"], "a", ".mp4"⟩], [["upload"]]⟩
        ⟨["upload"], "a", ".mp4"⟩
        ⟨true, some ("t"), .ok ("Dune"), some ("t2"), .ok ("8,5"), fun _ => true, true⟩
        []).2
      = ⟨.renombrado,
         obtener_ruta_unica [⟨["upload"], "a", ".mp4"⟩]
           ((⟨["upload"], "a", ".mp4"⟩ : Ruta).with_stem
             ("Dune" ++ "_puntos_" ++ reemplazar ("8.5") '.' '_')),
         decide (obtener_ruta_unica [⟨["upload"], "a", ".mp4"⟩]
             ((⟨["upload"], "a", ".mp4"⟩ : Ruta).with_stem
               ("Dune" ++ "_puntos_" ++ reemplazar ("8.5") '.' '_'))
           ∈ ([⟨["upload"], "a", ".mp4"⟩] : List Ruta).erase ⟨["upload"], "a", ".mp4"⟩)⟩
          :: resto :=
  (C6_nombre_compuesto_y_en_sitio [⟨["upload"], "a", ".mp4"⟩] ⟨["upload"], "a", ".mp4"⟩
      ("Dune") ("8.5")).2.2.2.2.2.2.2
    ⟨[⟨["upload"], "a", ".mp4"⟩], [["upload"]]⟩
    ⟨true, some ("t"), .ok ("Dune"), some ("t2"), .ok ("8,5"), fun _ => true, true⟩
    [] ("t") ("t2") rfl rfl (by decide) (by decide) (by decide) (by decide) (by decide)
    rfl (by decide) (by decide)

theorem crear_dir_mem (e : Estado) (d : List String) : d ∈ (crear_dir e d).dirs := by
  unfold crear_dir
  split
  · assumption
  · exact List.mem_cons_self _ _

theorem crear_dir_files (e : Estado) (d : List String) : (crear_dir e d).files = e.files := by
  unfold crear_dir
  split <;> rfl

theorem mover_reintentos_succ (mover_ok : Nat → Bool) (r i : Nat) :
    mover_reintentos mover_ok (r + 1) i
      = if mover_ok i then (i + 1, true) else mover_reintentos mover_ok r (i + 1) := rfl

theorem mover_reintentos_zero (mover_ok : Nat → Bool) (i : Nat) :
    mover_reintentos mover_ok 0 i = (i, false) := rfl

/-- C7: when title inference yields the not-found sentinel, the unknown
sentinel or an empty name, the orchestrator ensures the error subfolder
exists under the destination root and moves the original file there with
its stem and suffix unchanged; the move is attempted up to 3 times — if
the first success is attempt k the loop stops after k + 1 attempts — and
when all 3 attempts fail the failure is only logged, the filesystem is
left unchanged and the function returns normally. -/
theorem C7_ruta_a_carpeta_error :
    ∀ (estado : Estado) (ruta : Ruta) (env : Entorno) (dest : List String)
      (t nombre : String),
      env.duracion_ok = true → env.texto_inicio = some t → t ≠ "" →
      obtener_nombre_pelicula t env.nombre_resp = some nombre →
      (nombre = "" ∨ nombre = "nombre_desconocido" ∨ nombre = "pelicula_no_encontrada") →
      ((dest ++ ["error"]) ∈ (procesar_un_video estado ruta env dest).1.dirs) ∧
      ((mover_reintentos env.mover_error_ok 3 0).2 = true →
        (procesar_un_video estado ruta env dest).1.files
          = ⟨dest ++ ["error"], ruta.stem, ruta.suffix⟩ :: estado.files.erase ruta) ∧
      ((mover_reintentos env.mover_error_ok 3 0).2 = false →
        (procesar_un_video estado ruta env dest).1.files = estado.files ∧
        (procesar_un_video estado ruta env dest).2 = []) ∧
      (mover_reintentos env.mover_error_ok 3 0).1 ≤ 3 ∧
      (∀ k, k < 3 → (∀ j, j < k → env.mover_error_ok j = false) →
        env.mover_error_ok k = true →
        mover_reintentos env.mover_error_ok 3 0 = (k + 1, true)) ∧
      ((∀ k, k < 3 → env.mover_error_ok k = false) →
        mover_reintentos env.mover_error_ok 3 0 = (3, false)) := by
  intro estado ruta env dest t nombre hdur hti ht hnom hsent
  obtain ⟨dur, ti, nr, tf, pr, meo, mfo⟩ := env
  simp only at hdur hti hnom ⊢
  subst hdur hti
  simp only [procesar_un_video, Bool.not_true, Bool.false_eq_true, if_false,
    if_neg ht, hnom, if_pos hsent]
  refine ⟨?_, ?_, ?_, ?_, ?_, ?_⟩
  · split
    · exact crear_dir_mem estado (dest ++ ["error"])
    · exact crear_dir_mem estado (dest ++ ["error"])
  · intro hexito
    rw [if_pos hexito]
    simp only [mover_archivo, crear_dir_files]
  · intro hfallo
    rw [if_neg (by rw [hfallo]; exact Bool.false_ne_true)]
    exact ⟨crear_dir_files estado (dest ++ ["error"]), rfl⟩
  · show (mover_reintentos meo (2 + 1) 0).1 ≤ 3
    rw [mover_reintentos_succ]
    by_cases h0 : meo 0
    · rw [if_pos h0]
      decide
    · rw [if_neg h0, mover_reintentos_succ]
      by_cases h1 : meo 1
      · rw [if_pos h1]
        decide
      · rw [if_neg h1, mover_reintentos_succ]
        by_cases h2 : meo 2
        · rw [if_pos h2]
        · rw [if_neg h2, mover_reintentos_zero]
  · intro k hk hprev hk2
    interval_cases k
    · show mover_reintentos meo (2 + 1) 0 = (0 + 1, true)
      rw [mover_reintentos_succ, if_pos hk2]
    · have h0 : meo 0 = false := hprev 0 (by omega)
      show mover_reintentos meo (2 + 1) 0 = (1 + 1, true)
      rw [mover_reintentos_succ, if_neg (by rw [h0]; exact Bool.false_ne_true),
        mover_reintentos_succ, if_pos hk2]
    · have h0 : meo 0 = false := hprev 0 (by omega)
      have h1 : meo 1 = false := hprev 1 (by omega)
      show mover_reintentos meo (2 + 1) 0 = (2 + 1, true)
      rw [mover_reintentos_succ, if_neg (by rw [h0]; exact Bool.false_ne_true),
        mover_reintentos_succ, if_neg (by rw [h1]; exact Bool.false_ne_true),
        mover_reintentos_succ, if_pos hk2]
  · intro htodo
    show mover_reintentos meo (2 + 1) 0 = (3, false)
    rw [mover_reintentos_succ, if_neg (by rw [htodo 0 (by omega)]; exact Bool.false_ne_true),
      mover_reintentos_succ, if_neg (by rw [htodo 1 (by omega)]; exact Bool.false_ne_true),
      mover_reintentos_succ, if_neg (by rw [htodo 2 (by omega)]; exact Bool.false_ne_true),
      mover_reintentos_zero]

/-- Witness for C7: a concrete video whose title inference answers the
not-found sentinel ends up in the error folder with its name intact. -/
theorem C7_ruta_a_carpeta_error_witness :
    (["error"] : List String) ∈ (procesar_un_video ⟨[⟨["upload"], "c", ".mp4"⟩], [["upload"]]⟩
        ⟨["upload"], "c", ".mp4"⟩
        ⟨true, some ("t"), .ok ("pelicula_no_encontrada"), some ("t2"), .ok ("8"),
         fun _ => true, true⟩ []).1.dirs ∧
    (procesar_un_video ⟨[⟨["upload"], "c", ".mp4"⟩], [["upload"]]⟩
        ⟨["upload"], "c", ".mp4"⟩
        ⟨true, some ("t"), .ok ("pelicula_no_encontrada"), some ("t2"), .ok ("8"),
         fun _ => true, true⟩ []).1.files
      = ⟨["error"], "c", ".mp4"⟩
          :: ([⟨["upload"], "c", ".mp4"⟩] : List Ruta).erase ⟨["upload"], "c", ".mp4"⟩ := by
  have h := C7_ruta_a_carpeta_error ⟨[⟨["upload"], "c", ".mp4"⟩], [["upload"]]⟩
    ⟨["upload"], "c", ".mp4"⟩
    ⟨true, some ("t"), .ok ("pelicula_no_encontrada"), some ("t2"), .ok ("8"),
     fun _ => true, true⟩ [] ("t") ("pelicula_no_encontrada")
    rfl rfl (by decide) (by decide) (by decide)
  exact ⟨h.1, h.2.1 (by decide)⟩

/-- shutil.rmtree of directory d: d itself, every directory below it and
every file under it disappear. -/
def rmtree (e : Estado) (d : List String) : Estado :=
  { files := e.files.filter (fun r => !(d.isPrefixOf r.dir)),
    dirs := e.dirs.filter (fun d2 => !(d.isPrefixOf d2)) }

/-- The final cleanup of lines 266-270: if the temp directory exists, remove
its tree. -/
def limpiar_temp (e : Estado) (d : List String) : Estado :=
  if d ∈ e.dirs then rmtree e d else e

/-- The non-recursive scan of line 257: the mp4 files of the upload
directory followed by its mov files. -/
def videos_en (files : List Ruta) (upload_dir : List String) : List Ruta :=
  files.filter (fun r => decide (r.dir = upload_dir) && decide (r.suffix = ".mp4"))
    ++ files.filter (fun r => decide (r.dir = upload_dir) && decide (r.suffix = ".mov"))

/-- main (lines 217-270) as a filesystem transformer.  Configuration
failures before the try block (missing environment variables, model
initialisation) end the process before any filesystem state is touched and
are not modelled.  `archivo` is the optional command-line path,
`archivo_es_fichero` the result of its is_file() probe, and `entornos` the
collaborator outcomes for the i-th processed video.  Both early returns
inside the try block still run the finally cleanup; the two returns before
the try block (invalid file argument, missing upload directory) happen
before the temp directory is created. -/
def ejecutar_main (base_dir : List String) (archivo : Option Ruta)
    (archivo_es_fichero : Bool) (entornos : Nat → Entorno) (estado : Estado) : Estado :=
  match archivo with
  | some ruta_archivo =>
    if !archivo_es_fichero then estado
    else
      let temp_dir := ruta_archivo.dir ++ ["temp"]
      let estado1 := crear_dir estado temp_dir
      let estado2 := (procesar_un_video estado1 ruta_archivo (entornos 0) base_dir).1
      limpiar_temp estado2 temp_dir
  | none =>
    let upload_dir := base_dir ++ ["upload"]
    if upload_dir ∈ estado.dirs then
      let temp_dir := base_dir ++ ["temp"]
      let estado1 := crear_dir estado temp_dir
      let videos := videos_en estado1.files upload_dir
      let estado2 :=
        if videos.isEmpty then estado1
        else (ejecutar_lote estado1 (videos.enum.map (fun p => (p.2, entornos p.1))) base_dir).1
      limpiar_temp estado2 temp_dir
    else estado

theorem limpiar_temp_no_dir (e : Estado) (d : List String) : d ∉ (limpiar_temp e d).dirs := by
  unfold limpiar_temp
  split
  · intro hmem
    unfold rmtree at hmem
    simp only [List.mem_filter] at hmem
    have hpre : d.isPrefixOf d = true := by
      rw [List.isPrefixOf_iff_prefix]
    rw [hpre] at hmem
    simp at hmem
  · assumption

/-- C9: in both modes, whenever the run reaches the point where the
run-scoped temp directory is created (a valid file argument in single-file
mode, an existing upload directory in batch mode), the final cleanup always
removes it — whatever the per-item outcomes were — so the temp directory no
longer exists when the run ends. -/
theorem C9_temporal_siempre_eliminado :
    ∀ (base_dir : List String) (archivo : Option Ruta) (es_fichero : Bool)
      (entornos : Nat → Entorno) (estado : Estado),
      (∀ ruta, archivo = some ruta → es_fichero = true →
        (ruta.dir ++ ["temp"])
          ∉ (ejecutar_main base_dir archivo es_fichero entornos estado).dirs) ∧
      (archivo = none → (base_dir ++ ["upload"]) ∈ estado.dirs →
        (base_dir ++ ["temp"])
          ∉ (ejecutar_main base_dir archivo es_fichero entornos estado).dirs) := by
  intro base_dir archivo es_fichero entornos estado
  constructor
  · intro ruta harch hes
    subst harch
    subst hes
    unfold ejecutar_main
    simp only [Bool.not_true, Bool.false_eq_true, if_false]
    exact limpiar_temp_no_dir _ _
  · intro harch hupload
    subst harch
    unfold ejecutar_main
    rw [if_pos hupload]
    exact limpiar_temp_no_dir _ _

/-- Witness for C9: a concrete batch run over an existing upload directory
ends with no temp directory. -/
theorem C9_temporal_siempre_eliminado_witness :
    (["temp"] : List String) ∉ (ejecutar_main [] none true
      (fun _ => ⟨true, none, .error (""), none, .error (""), fun _ => false, false⟩)
      ⟨[⟨["upload"], "a", ".mp4"⟩], [["upload"]]⟩).dirs :=
  (C9_temporal_siempre_eliminado [] none true
      (fun _ => ⟨true, none, .error (""), none, .error (""), fun _ => false, false⟩)
      ⟨[⟨["upload"], "a", ".mp4"⟩], [["upload"]]⟩).2 rfl (by decide)
